import Mathlib

/-!
Verification development for the MokTrading tobacco tax engine.

Shallow embedding of the tax rules engine found in
`src/models/tax_models.py` (class `StateTobaccoTax`) and
`src/utils/tax_calculator.py` (class `TaxCalculator`), together with the
case normalization of the `/tax/state/<code>` route in
`src/routes/tax_api.py`.

Modelling conventions:
- Python `Decimal` values become `ℚ` (the source only adds, multiplies,
  compares and takes `min` of decimals, all of which are exact on `ℚ`).
- Python `int` quantities become `ℤ`.
- Optional arguments (`price=None`, `volume_ml=None`) become `Option ℚ`,
  and the Python truthiness test `if price:` (false for both `None` and
  `Decimal(0)`) is modelled by the `truthy` predicate below.
- The rule dictionaries (`cigar_tax`, `vape_tax`) become tagged variants
  that carry exactly the fields present in the source literals; the
  dynamic-key tests (`'cap' in info`, `'open' in info`) become matches on
  those variants.
-/

namespace MokTax

/-- Python truthiness of an optional decimal: `None` and `0` are falsy. -/
def truthy (x : Option ℚ) : Bool :=
  match x with
  | Option.none => false
  | some v => decide (v ≠ 0)

/-- Whether the character list `needle` is an initial segment of `hay`
(used to embed Python substring tests). -/
def leadsWith : List Char → List Char → Bool
  | [], _ => true
  | _ :: _, [] => false
  | a :: as, b :: bs => a == b && leadsWith as bs

/-- Whether the character list `needle` occurs contiguously in `hay`,
the semantics of Python's `needle in hay` on strings. -/
def occursIn (needle : List Char) : List Char → Bool
  | [] => leadsWith needle []
  | b :: bs => leadsWith needle (b :: bs) || occursIn needle bs

/-- Python `needle in hay` for strings. -/
def strContains (hay needle : String) : Bool :=
  occursIn needle.toList hay.toList

/-- Cap configuration of a percentage cigar rule: the source dictionaries
either carry no cap key, a single `'cap'`, or the pair
`'cap_low'`/`'cap_high'` (Vermont). -/
inductive CigarCap where
  | noCap
  | single (cap : ℚ)
  | tiered (capLow capHigh : ℚ)
deriving DecidableEq, Repr

/-- The `cigar_tax` rule dictionaries of `_load_tax_data`: tag `'none'`,
`'per_unit'` with a rate, or `'percentage'` with a rate and cap fields. -/
inductive CigarRule where
  | none
  | perUnit (rate : ℚ)
  | percentage (rate : ℚ) (cap : CigarCap)
deriving DecidableEq, Repr

/-- The `vape_tax` rule dictionaries of `_load_tax_data`.  `bifurcated`
carries the optional `'open'`/`'closed'` keys (Nebraska's entry is tagged
`'bifurcated'` but stores only `'small'`/`'large'` keys, which no branch of
`calculate_vape_tax` ever reads, so it is embedded with both standard keys
absent).  `retail` is New York's tag, matched by no branch of
`calculate_vape_tax`. -/
inductive VapeRule where
  | percentage (rate : ℚ)
  | perMl (rate : ℚ)
  | bifurcated (openRate closedRate : Option ℚ)
  | dual (wholesale retail : Option ℚ)
  | retail (rate : ℚ)
deriving DecidableEq, Repr

/-- One state's entry in the `_load_tax_data` mapping. -/
structure StateTaxData where
  cigarette_tax : ℚ
  cigar_tax : CigarRule
  vape_tax : Option VapeRule
  sales_tax_applies : Bool
  sales_tax_rate : ℚ
deriving DecidableEq, Repr

/-- The full `_load_tax_data` table: 50 states plus DC, transcribed from
`tax_models.py` lines 18–376. -/
def tax_data : List (String × StateTaxData) := [
  ("AL", ⟨0.675, CigarRule.perUnit 0.0405, Option.none, true, 0.04⟩),
  ("AK", ⟨2.000, CigarRule.percentage 0.75 CigarCap.noCap, Option.none, false, 0.00⟩),
  ("AZ", ⟨2.000, CigarRule.perUnit 0.218, Option.none, true, 0.056⟩),
  ("AR", ⟨1.150, CigarRule.percentage 0.68 (CigarCap.single 0.50), Option.none, true, 0.065⟩),
  ("CA", ⟨2.870, CigarRule.percentage 0.5427 CigarCap.noCap,
          some (VapeRule.dual (some 0.5632) (some 0.125)), true, 0.0725⟩),
  ("CO", ⟨1.940, CigarRule.percentage 0.56 CigarCap.noCap,
          some (VapeRule.percentage 0.50), true, 0.029⟩),
  ("CT", ⟨4.350, CigarRule.percentage 0.50 (CigarCap.single 0.50),
          some (VapeRule.bifurcated (some 0.10) (some 0.40)), true, 0.0635⟩),
  ("DE", ⟨2.100, CigarRule.percentage 0.30 CigarCap.noCap,
          some (VapeRule.perMl 0.05), false, 0.00⟩),
  ("DC", ⟨4.500, CigarRule.none, some (VapeRule.percentage 0.79), true, 0.06⟩),
  ("FL", ⟨1.339, CigarRule.none, Option.none, true, 0.06⟩),
  ("GA", ⟨0.370, CigarRule.percentage 0.23 CigarCap.noCap,
          some (VapeRule.bifurcated (some 0.07) (some 0.05)), true, 0.04⟩),
  ("HI", ⟨3.200, CigarRule.percentage 0.50 CigarCap.noCap,
          some (VapeRule.percentage 0.70), true, 0.04⟩),
  ("ID", ⟨0.570, CigarRule.percentage 0.40 (CigarCap.single 0.50), Option.none, true, 0.06⟩),
  ("IL", ⟨2.980, CigarRule.percentage 0.45 CigarCap.noCap,
          some (VapeRule.percentage 0.15), true, 0.0625⟩),
  ("IN", ⟨0.995, CigarRule.percentage 0.30 (CigarCap.single 3.00),
          some (VapeRule.bifurcated (some 0.15) (some 0.15)), true, 0.07⟩),
  ("IA", ⟨1.360, CigarRule.percentage 0.50 (CigarCap.single 0.50), Option.none, true, 0.06⟩),
  ("KS", ⟨1.290, CigarRule.percentage 0.10 CigarCap.noCap,
          some (VapeRule.perMl 0.05), true, 0.065⟩),
  ("KY", ⟨1.100, CigarRule.percentage 0.15 CigarCap.noCap,
          some (VapeRule.bifurcated (some 0.15) (some 1.50)), true, 0.06⟩),
  ("LA", ⟨1.080, CigarRule.percentage 0.20 CigarCap.noCap,
          some (VapeRule.perMl 0.15), true, 0.0445⟩),
  ("ME", ⟨2.000, CigarRule.percentage 0.43 CigarCap.noCap,
          some (VapeRule.percentage 0.43), true, 0.055⟩),
  ("MD", ⟨3.750, CigarRule.percentage 0.15 CigarCap.noCap,
          some (VapeRule.bifurcated (some 0.12) (some 0.60)), true, 0.06⟩),
  ("MA", ⟨3.510, CigarRule.percentage 0.40 CigarCap.noCap,
          some (VapeRule.percentage 0.75), true, 0.0625⟩),
  ("MI", ⟨2.000, CigarRule.percentage 0.32 (CigarCap.single 0.50), Option.none, true, 0.06⟩),
  ("MN", ⟨3.040, CigarRule.percentage 0.95 (CigarCap.single 0.50),
          some (VapeRule.percentage 0.95), true, 0.06875⟩),
  ("MS", ⟨0.680, CigarRule.percentage 0.15 CigarCap.noCap, Option.none, true, 0.07⟩),
  ("MO", ⟨0.170, CigarRule.percentage 0.10 CigarCap.noCap, Option.none, true, 0.04225⟩),
  ("MT", ⟨1.700, CigarRule.percentage 0.50 (CigarCap.single 0.35), Option.none, false, 0.00⟩),
  ("NE", ⟨0.640, CigarRule.percentage 0.20 CigarCap.noCap,
          some (VapeRule.bifurcated Option.none Option.none), true, 0.055⟩),
  ("NV", ⟨1.800, CigarRule.percentage 0.30 CigarCap.noCap,
          some (VapeRule.percentage 0.30), true, 0.0685⟩),
  ("NH", ⟨1.780, CigarRule.none,
          some (VapeRule.bifurcated (some 0.08) (some 0.30)), false, 0.00⟩),
  ("NJ", ⟨2.700, CigarRule.percentage 0.30 CigarCap.noCap,
          some (VapeRule.bifurcated (some 0.10) (some 0.10)), true, 0.06625⟩),
  ("NM", ⟨2.000, CigarRule.percentage 0.25 (CigarCap.single 0.50),
          some (VapeRule.bifurcated (some 0.125) (some 0.50)), true, 0.05125⟩),
  ("NY", ⟨5.350, CigarRule.percentage 0.75 CigarCap.noCap,
          some (VapeRule.retail 0.20), true, 0.08⟩),
  ("NC", ⟨0.450, CigarRule.percentage 0.1285 CigarCap.noCap,
          some (VapeRule.perMl 0.05), true, 0.0475⟩),
  ("ND", ⟨0.440, CigarRule.percentage 0.28 CigarCap.noCap, Option.none, true, 0.05⟩),
  ("OH", ⟨1.600, CigarRule.percentage 0.17 (CigarCap.single 0.65),
          some (VapeRule.perMl 0.10), true, 0.0575⟩),
  ("OK", ⟨2.030, CigarRule.perUnit 0.12, Option.none, true, 0.045⟩),
  ("OR", ⟨3.330, CigarRule.percentage 0.65 (CigarCap.single 1.00),
          some (VapeRule.percentage 0.65), false, 0.00⟩),
  ("PA", ⟨2.600, CigarRule.none, some (VapeRule.percentage 0.40), true, 0.06⟩),
  ("RI", ⟨4.250, CigarRule.percentage 0.80 (CigarCap.single 0.50), Option.none, true, 0.07⟩),
  ("SC", ⟨0.570, CigarRule.percentage 0.055 CigarCap.noCap, Option.none, true, 0.06⟩),
  ("SD", ⟨1.530, CigarRule.percentage 0.35 CigarCap.noCap, Option.none, true, 0.045⟩),
  ("TN", ⟨0.620, CigarRule.percentage 0.066 CigarCap.noCap, Option.none, true, 0.07⟩),
  ("TX", ⟨1.410, CigarRule.perUnit 0.011, Option.none, true, 0.0625⟩),
  ("UT", ⟨1.700, CigarRule.percentage 0.86 CigarCap.noCap,
          some (VapeRule.percentage 0.56), true, 0.0485⟩),
  ("VT", ⟨3.080, CigarRule.percentage 0.92 (CigarCap.tiered 2.00 4.00),
          some (VapeRule.percentage 0.92), true, 0.06⟩),
  ("VA", ⟨0.600, CigarRule.percentage 0.20 CigarCap.noCap,
          some (VapeRule.perMl 0.066), true, 0.053⟩),
  ("WA", ⟨3.025, CigarRule.percentage 0.95 (CigarCap.single 0.65),
          some (VapeRule.bifurcated (some 0.09) (some 0.27)), true, 0.065⟩),
  ("WV", ⟨1.200, CigarRule.percentage 0.12 CigarCap.noCap,
          some (VapeRule.perMl 0.075), true, 0.06⟩),
  ("WI", ⟨2.520, CigarRule.percentage 0.71 (CigarCap.single 0.50),
          some (VapeRule.perMl 0.05), true, 0.05⟩),
  ("WY", ⟨0.600, CigarRule.percentage 0.20 CigarCap.noCap,
          some (VapeRule.percentage 0.15), true, 0.04⟩)]

/-- Dictionary access `self.tax_data[state]` guarded by
`state in self.tax_data`. -/
def taxLookup (state : String) : Option StateTaxData :=
  tax_data.lookup state

/-- Python `str.lower()`, character-wise (all inputs in this code base are
ASCII, where the two agree). -/
def pyLower (s : String) : String := String.mk (s.data.map Char.toLower)

/-- Python `str.upper()`, character-wise (ASCII inputs). -/
def pyUpper (s : String) : String := String.mk (s.data.map Char.toUpper)

/-- `StateTobaccoTax.calculate_cigarette_tax` (tax_models.py 378–384). -/
def calculate_cigarette_tax (state : String) (quantity : ℤ) : ℚ :=
  match taxLookup state with
  | Option.none => 0
  | some data => data.cigarette_tax * quantity

/-- The per-unit amount of the percentage cigar rule, lines 397–407 of
tax_models.py: `tax_per_unit = wholesale_price * rate`, then `min` with the
single cap when one is configured, else with `cap_low` below the $10
wholesale threshold and `cap_high` at or above it when the tiered pair is
configured. -/
def cigarTaxPerUnit (wholesale_price rate : ℚ) (cap : CigarCap) : ℚ :=
  let tax_per_unit := wholesale_price * rate
  match cap with
  | CigarCap.noCap => tax_per_unit
  | CigarCap.single c => min tax_per_unit c
  | CigarCap.tiered capLow capHigh =>
    if wholesale_price < 10 then min tax_per_unit capLow
    else min tax_per_unit capHigh

/-- `StateTobaccoTax.calculate_cigar_tax` (tax_models.py 386–414). -/
def calculate_cigar_tax (state : String) (wholesale_price : ℚ)
    (quantity : ℤ) : ℚ :=
  match taxLookup state with
  | Option.none => 0
  | some data =>
    match data.cigar_tax with
    | CigarRule.none => 0
    | CigarRule.percentage rate cap =>
      (let tax_per_unit := wholesale_price * rate
       match cap with
       | CigarCap.noCap => tax_per_unit
       | CigarCap.single c => min tax_per_unit c
       | CigarCap.tiered capLow capHigh =>
         if wholesale_price < 10 then min tax_per_unit capLow
         else min tax_per_unit capHigh) * quantity
    | CigarRule.perUnit rate => rate * quantity

/-- `StateTobaccoTax.calculate_vape_tax` (tax_models.py 416–468).  Each
`if price:` / `if volume_ml:` of the source is a Python truthiness test,
modelled by `truthy`; a branch that returns nothing falls through to the
final `return Decimal(0)`. -/
def calculate_vape_tax (state : String) (product_type : String)
    (price volume_ml : Option ℚ) (quantity : ℤ) : ℚ :=
  match taxLookup state with
  | Option.none => 0
  | some data =>
    match data.vape_tax with
    | Option.none => 0
    | some (VapeRule.percentage rate) =>
      if truthy price then price.getD 0 * rate * quantity else 0
    | some (VapeRule.perMl rate) =>
      if truthy volume_ml then volume_ml.getD 0 * rate * quantity else 0
    | some (VapeRule.bifurcated openRate closedRate) =>
      if product_type == "open" then
        match openRate with
        | some orate =>
          if truthy price then price.getD 0 * orate * quantity
          else if truthy volume_ml then volume_ml.getD 0 * orate * quantity
          else 0
        | Option.none => 0
      else if product_type == "closed" then
        match closedRate with
        | some crate =>
          if crate < 1 then
            if truthy price then price.getD 0 * crate * quantity else 0
          else
            if truthy volume_ml then volume_ml.getD 0 * crate * quantity
            else crate * quantity
        | Option.none => 0
      else 0
    | some (VapeRule.dual wholesale retailRate) =>
      let t1 : ℚ := match wholesale with
        | some w => if truthy price then price.getD 0 * w else 0
        | Option.none => 0
      let t2 : ℚ := match retailRate with
        | some r => if truthy price then price.getD 0 * r else 0
        | Option.none => 0
      (t1 + t2) * quantity
    | some (VapeRule.retail _) =>
      -- the source's if/elif chain has no branch for the 'retail' tag,
      -- so control falls through to the final zero return
      0

/-- `StateTobaccoTax.calculate_sales_tax` (tax_models.py 470–478). -/
def calculate_sales_tax (state : String) (taxable_amount : ℚ) : ℚ :=
  match taxLookup state with
  | Option.none => 0
  | some data =>
    if data.sales_tax_applies then taxable_amount * data.sales_tax_rate
    else 0

/-- The dictionary returned by `StateTobaccoTax.calculate_total_tax`. -/
structure TaxBreakdown where
  excise_tax : ℚ
  sales_tax : ℚ
  total_tax : ℚ
deriving DecidableEq, Repr

/-- `StateTobaccoTax.calculate_total_tax` (tax_models.py 480–508). -/
def calculate_total_tax (state : String) (product_type : String)
    (base_price : ℚ) (quantity : ℤ) (volume_ml : Option ℚ) : TaxBreakdown :=
  let excise_tax : ℚ :=
    if product_type == "cigarettes" then
      calculate_cigarette_tax state quantity
    else if product_type == "cigars" || product_type == "cigar" then
      calculate_cigar_tax state base_price quantity
    else if product_type == "vape" || product_type == "e-cigarette" ||
            product_type == "vape_open" || product_type == "vape_closed" then
      let vape_type := if strContains product_type "open" then "open"
                       else "closed"
      calculate_vape_tax state vape_type (some base_price) volume_ml quantity
    else 0
  let taxable_amount := base_price + excise_tax
  let sales_tax := calculate_sales_tax state taxable_amount
  ⟨excise_tax, sales_tax, excise_tax + sales_tax⟩

/-- The read-only product view `TaxCalculator` consumes: identifier, name,
the category's name when a category is attached, optional description and
the (wholesale) price. -/
structure Product where
  id : ℕ
  name : String
  category : Option String
  description : Option String
  price : ℚ
deriving DecidableEq, Repr

/-- `TaxCalculator._get_product_type` (tax_calculator.py 117–134). -/
def get_product_type (product : Product) : String :=
  let category_lower := pyLower (product.category.getD "")
  let name_lower := pyLower product.name
  if strContains category_lower "cigarette" ||
     strContains name_lower "cigarette" then "cigarettes"
  else if strContains category_lower "cigar" ||
          strContains name_lower "cigar" then "cigars"
  else if ["vape", "e-cig", "electronic", "vapor"].any
            (fun term => strContains category_lower term ||
                         strContains name_lower term) then
    if ["cartridge", "pod", "disposable"].any
         (fun term => strContains name_lower term) then "vape_closed"
    else "vape_open"
  else "cigars"

/-- Maximal digit run at the head of a character list, with the rest. -/
def takeDigits : List Char → List Char × List Char
  | [] => ([], [])
  | c :: cs =>
    if c.isDigit then
      let p := takeDigits cs
      (c :: p.1, p.2)
    else ([], c :: cs)

/-- Numeric value of a digit run. -/
def natOfDigits (l : List Char) : ℕ :=
  l.foldl (fun acc c => acc * 10 + (c.toNat - 48)) 0

/-- Value of `Decimal(intPart + "." + fracPart)`. -/
def decOfParts (intPart fracPart : List Char) : ℚ :=
  natOfDigits intPart + (natOfDigits fracPart : ℚ) / 10 ^ fracPart.length

/-- Whether, after the regex's `\s*`, the literal unit follows. -/
def unitAfterSpaces (unit l : List Char) : Bool :=
  leadsWith unit (l.dropWhile Char.isWhitespace)

/-- One attempt of the regex `(\d+(?:\.\d+)?)\s*unit` anchored at the head
of `l`, returning the captured number.  The greedy digit runs never need
to give characters back (whatever follows a maximal digit run is not a
digit, and none of `.`, whitespace or the unit letters are digits), so a
maximal-munch scan realizes the regex's backtracking semantics here. -/
def matchNumberUnitAt (unit l : List Char) : Option ℚ :=
  let p := takeDigits l
  if p.1.isEmpty then Option.none
  else
    match p.2 with
    | '.' :: rest2 =>
      let f := takeDigits rest2
      if !f.1.isEmpty && unitAfterSpaces unit f.2 then
        some (decOfParts p.1 f.1)
      else if unitAfterSpaces unit p.2 then some (natOfDigits p.1 : ℚ)
      else Option.none
    | _ =>
      if unitAfterSpaces unit p.2 then some (natOfDigits p.1 : ℚ)
      else Option.none

/-- `re.search` of `(\d+(?:\.\d+)?)\s*unit`: leftmost match wins. -/
def searchNumberUnit (unit : List Char) : List Char → Option ℚ
  | [] => Option.none
  | c :: cs =>
    match matchNumberUnitAt unit (c :: cs) with
    | some v => some v
    | Option.none => searchNumberUnit unit cs

/-- `TaxCalculator._extract_volume_ml` (tax_calculator.py 136–164): the
three volume patterns over the lowercased name-plus-description text (the
third, "mL", can never match lowercased text, kept for fidelity), then the
cartridge/pod and disposable defaults. -/
def extract_volume_ml (product : Product) : Option ℚ :=
  let text := pyLower (product.name ++ " " ++ product.description.getD "")
  let chars := text.toList
  match searchNumberUnit "ml".toList chars with
  | some v => some v
  | Option.none =>
    match searchNumberUnit "milliliter".toList chars with
    | some v => some v
    | Option.none =>
      match searchNumberUnit "mL".toList chars with
      | some v => some v
      | Option.none =>
        if strContains text "cartridge" || strContains text "pod" then
          some 1
        else if strContains text "disposable" then some 2
        else Option.none

/-- The per-item dictionary built by `TaxCalculator.calculate_product_tax`
(tax_calculator.py 17–51): the `calculate_total_tax` breakdown updated
with product identity, base price, quantity, state and
`price_with_tax = base_price + total_tax`. -/
structure ItemTax where
  excise_tax : ℚ
  sales_tax : ℚ
  total_tax : ℚ
  product_id : ℕ
  product_name : String
  product_type : String
  base_price : ℚ
  quantity : ℤ
  state : String
  price_with_tax : ℚ
deriving DecidableEq, Repr

/-- `TaxCalculator.calculate_product_tax` (tax_calculator.py 17–51). -/
def calculate_product_tax (product : Product) (state : String)
    (quantity : ℤ) : ItemTax :=
  let product_type := get_product_type product
  let base_price := product.price
  let volume_ml := extract_volume_ml product
  let t := calculate_total_tax state product_type base_price quantity
             volume_ml
  ⟨t.excise_tax, t.sales_tax, t.total_tax, product.id, product.name,
   product_type, base_price, quantity, state, base_price + t.total_tax⟩

/-- One element of the `cart_items` list: `{"product": ..., "quantity": ...}`. -/
structure CartItem where
  product : Product
  quantity : ℤ
deriving DecidableEq, Repr

/-- The `cart_tax_summary` dictionary of
`TaxCalculator.calculate_cart_tax` (tax_calculator.py 53–84). -/
structure CartTaxSummary where
  items : List ItemTax
  subtotal : ℚ
  total_excise_tax : ℚ
  total_sales_tax : ℚ
  total_tax : ℚ
  grand_total : ℚ
  state : String
deriving DecidableEq, Repr

/-- One iteration of the loop in `calculate_cart_tax` (lines 68–80):
append the item breakdown and accumulate the running sums. -/
def cartStep (state : String) (acc : CartTaxSummary) (item : CartItem) :
    CartTaxSummary :=
  let item_tax := calculate_product_tax item.product state item.quantity
  ⟨acc.items ++ [item_tax],
   acc.subtotal + item_tax.base_price,
   acc.total_excise_tax + item_tax.excise_tax,
   acc.total_sales_tax + item_tax.sales_tax,
   acc.total_tax + item_tax.total_tax,
   acc.grand_total, acc.state⟩

/-- `TaxCalculator.calculate_cart_tax` (tax_calculator.py 53–84): fold the
loop over the items starting from the all-zero summary, then set
`grand_total = subtotal + total_tax`. -/
def calculate_cart_tax (cart_items : List CartItem)
    (shipping_state : String) : CartTaxSummary :=
  let s := cart_items.foldl (cartStep shipping_state)
             ⟨[], 0, 0, 0, 0, 0, shipping_state⟩
  ⟨s.items, s.subtotal, s.total_excise_tax, s.total_sales_tax, s.total_tax,
   s.subtotal + s.total_tax, s.state⟩

/-- `StateTobaccoTax.requires_wholesaler_license` (tax_models.py 514–518). -/
def requires_wholesaler_license (state : String) : Bool :=
  !(state == "DE" || state == "MT" || state == "NH" || state == "OR")

/-- The data content of the summary dictionary built by
`TaxCalculator.get_tax_rate_summary` (tax_calculator.py 97–115).  The
purely presentational fields (the `_format_tax_info` display strings, the
filing-requirements text, the float conversions) are display formatting of
these same values and are not separately modelled. -/
structure TaxRateSummary where
  state : String
  cigarette_tax_per_pack : ℚ
  cigar_tax : CigarRule
  vape_tax : Option VapeRule
  sales_tax_applies : Bool
  sales_tax_rate : ℚ
  wholesaler_license_required : Bool
deriving DecidableEq, Repr

/-- `TaxCalculator.get_tax_rate_summary`: `Option.none` models the
`{"error": ...}` dictionary returned when the state is not found. -/
def get_tax_rate_summary (state : String) : Option TaxRateSummary :=
  match taxLookup state with
  | Option.none => Option.none
  | some info =>
    some ⟨state, info.cigarette_tax, info.cigar_tax, info.vape_tax,
          info.sales_tax_applies,
          (if info.sales_tax_applies then info.sales_tax_rate else 0),
          requires_wholesaler_license state⟩

/-- The `/tax/state/<state_code>` route handler `get_state_tax_info`
(tax_api.py 76–89): uppercase the code, then fetch the summary. -/
def get_state_tax_info (state_code : String) : Option TaxRateSummary :=
  get_tax_rate_summary (pyUpper state_code)

/-- The breakdown `calculate_cart_tax` computes for one cart line. -/
def itemOf (state : String) (item : CartItem) : ItemTax :=
  calculate_product_tax item.product state item.quantity

lemma sum_map_add {α : Type} (l : List α) (f g : α → ℚ) :
    (l.map fun x => f x + g x).sum = (l.map f).sum + (l.map g).sum := by
  induction l with
  | nil => simp
  | cons a t ih => simp only [List.map_cons, List.sum_cons, ih]; ring

lemma sum_map_zero {α : Type} (l : List α) (f : α → ℚ)
    (h : ∀ x ∈ l, f x = 0) : (l.map f).sum = 0 := by
  induction l with
  | nil => simp
  | cons a t ih =>
    simp only [List.map_cons, List.sum_cons, h a (by simp)]
    rw [ih (fun x hx => h x (by simp [hx]))]
    ring

lemma lookup_mem : ∀ (l : List (String × StateTaxData)) (a : String)
    (b : StateTaxData), l.lookup a = some b → (a, b) ∈ l := by
  intro l
  induction l with
  | nil => intro a b h; simp [List.lookup] at h
  | cons kv t ih =>
    intro a b h
    rcases kv with ⟨k, v⟩
    simp only [List.lookup] at h
    by_cases hk : a = k
    · subst hk
      rw [show (a == a) = true by simp] at h
      have hb : v = b := Option.some.inj h
      subst hb
      exact List.mem_cons_self _ _
    · rw [show (a == k) = false from beq_false_of_ne hk] at h
      exact List.mem_cons_of_mem _ (ih a b h)

/-- Closed form for the accumulation loop of `calculate_cart_tax`. -/
lemma cart_foldl (state : String) (items : List CartItem)
    (acc : CartTaxSummary) :
    items.foldl (cartStep state) acc =
      ⟨acc.items ++ items.map (itemOf state),
       acc.subtotal + (items.map fun i => (itemOf state i).base_price).sum,
       acc.total_excise_tax +
         (items.map fun i => (itemOf state i).excise_tax).sum,
       acc.total_sales_tax +
         (items.map fun i => (itemOf state i).sales_tax).sum,
       acc.total_tax + (items.map fun i => (itemOf state i).total_tax).sum,
       acc.grand_total, acc.state⟩ := by
  induction items generalizing acc with
  | nil => simp
  | cons i t ih =>
    simp only [List.foldl_cons, ih, cartStep, itemOf, List.map_cons,
      List.sum_cons, List.append_assoc, List.singleton_append,
      List.cons_append, List.nil_append, add_assoc]

/-- Closed form for `calculate_cart_tax`: the item list in input order and
the componentwise sums. -/
lemma cart_eq (cart : List CartItem) (state : String) :
    calculate_cart_tax cart state =
      ⟨cart.map (itemOf state),
       (cart.map fun i => (itemOf state i).base_price).sum,
       (cart.map fun i => (itemOf state i).excise_tax).sum,
       (cart.map fun i => (itemOf state i).sales_tax).sum,
       (cart.map fun i => (itemOf state i).total_tax).sum,
       (cart.map fun i => (itemOf state i).base_price).sum +
         (cart.map fun i => (itemOf state i).total_tax).sum,
       state⟩ := by
  simp [calculate_cart_tax, cart_foldl]

lemma item_total_eq (p : Product) (st : String) (q : ℤ) :
    (calculate_product_tax p st q).total_tax =
      (calculate_product_tax p st q).excise_tax +
        (calculate_product_tax p st q).sales_tax := rfl

lemma item_pwt_eq (p : Product) (st : String) (q : ℤ) :
    (calculate_product_tax p st q).price_with_tax =
      (calculate_product_tax p st q).base_price +
        (calculate_product_tax p st q).total_tax := rfl

lemma item_base_eq (p : Product) (st : String) (q : ℤ) :
    (calculate_product_tax p st q).base_price = p.price := rfl

lemma item_excise_eq (p : Product) (st : String) (q : ℤ) :
    (calculate_product_tax p st q).excise_tax =
      (calculate_total_tax st (get_product_type p) p.price q
        (extract_volume_ml p)).excise_tax := rfl

lemma cigarette_zero {st : String} (h : taxLookup st = Option.none)
    (q : ℤ) : calculate_cigarette_tax st q = 0 := by
  simp [calculate_cigarette_tax, h]

lemma cigar_zero {st : String} (h : taxLookup st = Option.none) (p : ℚ)
    (q : ℤ) : calculate_cigar_tax st p q = 0 := by
  simp [calculate_cigar_tax, h]

lemma vape_zero {st : String} (h : taxLookup st = Option.none)
    (pt : String) (price vol : Option ℚ) (q : ℤ) :
    calculate_vape_tax st pt price vol q = 0 := by
  simp [calculate_vape_tax, h]

lemma sales_zero {st : String} (h : taxLookup st = Option.none) (a : ℚ) :
    calculate_sales_tax st a = 0 := by
  simp [calculate_sales_tax, h]

lemma total_zero {st : String} (h : taxLookup st = Option.none)
    (pt : String) (b : ℚ) (q : ℤ) (v : Option ℚ) :
    calculate_total_tax st pt b q v = ⟨0, 0, 0⟩ := by
  simp only [calculate_total_tax, cigarette_zero h, cigar_zero h,
    vape_zero h, sales_zero h]
  split_ifs <;> simp [sales_zero h]

lemma item_zero {st : String} (h : taxLookup st = Option.none)
    (p : Product) (q : ℤ) :
    (calculate_product_tax p st q).excise_tax = 0 ∧
    (calculate_product_tax p st q).sales_tax = 0 ∧
    (calculate_product_tax p st q).total_tax = 0 := by
  have := total_zero h (get_product_type p) p.price q (extract_volume_ml p)
  refine ⟨?_, ?_, ?_⟩ <;>
    simp [calculate_product_tax, this]

lemma cigarette_linear (st : String) (q : ℤ) :
    calculate_cigarette_tax st q = q * calculate_cigarette_tax st 1 := by
  unfold calculate_cigarette_tax
  cases taxLookup st with
  | none => simp
  | some d => push_cast; ring

lemma cigar_linear (st : String) (p : ℚ) (q : ℤ) :
    calculate_cigar_tax st p q = q * calculate_cigar_tax st p 1 := by
  unfold calculate_cigar_tax
  cases taxLookup st with
  | none => simp
  | some d =>
    cases hc : d.cigar_tax with
    | none => simp [hc]
    | perUnit r => simp only [hc]; push_cast; ring
    | percentage r cap => simp only [hc]; push_cast; ring

lemma vape_linear (st pt : String) (price vol : Option ℚ) (q : ℤ) :
    calculate_vape_tax st pt price vol q =
      q * calculate_vape_tax st pt price vol 1 := by
  unfold calculate_vape_tax
  cases taxLookup st with
  | none => simp
  | some d =>
    cases hv : d.vape_tax with
    | none => simp [hv]
    | some r =>
      simp only [hv]
      cases r with
      | percentage rate => dsimp only; split_ifs <;> push_cast <;> ring
      | perMl rate => dsimp only; split_ifs <;> push_cast <;> ring
      | bifurcated o c =>
        cases o <;> cases c
        all_goals try dsimp only
        all_goals try split_ifs
        all_goals push_cast
        all_goals ring
      | dual w r2 =>
        cases w <;> cases r2
        all_goals try dsimp only
        all_goals try split_ifs
        all_goals push_cast
        all_goals ring
      | retail rate => simp

lemma total_excise_linear (st pt : String) (b : ℚ) (q : ℤ)
    (v : Option ℚ) :
    (calculate_total_tax st pt b q v).excise_tax =
      q * (calculate_total_tax st pt b 1 v).excise_tax := by
  simp only [calculate_total_tax]
  split_ifs <;>
    first
      | exact cigarette_linear st q
      | exact cigar_linear st b q
      | exact vape_linear st _ (some b) v q
      | simp

/-- A sample catalog item (classified as cigarettes, no extractable
volume) used to instantiate the general theorems at concrete inputs. -/
def packProduct : Product :=
  ⟨1, "Cigarette Pack", Option.none, Option.none, 10⟩

/-- C1: for every list of line items and every jurisdiction code, the
summary returned by `calculate_cart_tax` satisfies
`grand_total = subtotal + total_tax` and
`total_tax = total_excise_tax + total_sales_tax`, as exact equalities of
rationals (hence also `grand_total = subtotal + excise + sales`). -/
theorem c1_cart_totals (cart : List CartItem) (state : String) :
    (calculate_cart_tax cart state).grand_total =
      (calculate_cart_tax cart state).subtotal +
        (calculate_cart_tax cart state).total_tax
    ∧ (calculate_cart_tax cart state).total_tax =
      (calculate_cart_tax cart state).total_excise_tax +
        (calculate_cart_tax cart state).total_sales_tax := by
  constructor
  · rfl
  · rw [cart_eq]
    dsimp only
    have hmap : (cart.map fun i => (itemOf state i).total_tax) =
        cart.map fun i =>
          (itemOf state i).excise_tax + (itemOf state i).sales_tax := by
      apply List.map_congr_left
      intro i _
      exact item_total_eq i.product state i.quantity
    rw [hmap, sum_map_add]

/-- C3: a jurisdiction code absent from the rule table makes every
component calculator return zero, and the cart summary has all tax fields
zero with `grand_total = subtotal`; no error path exists. -/
theorem c3_unknown_jurisdiction_all_zero (state : String)
    (h : taxLookup state = Option.none) :
    (∀ q : ℤ, calculate_cigarette_tax state q = 0)
    ∧ (∀ (p : ℚ) (q : ℤ), calculate_cigar_tax state p q = 0)
    ∧ (∀ (pt : String) (price vol : Option ℚ) (q : ℤ),
        calculate_vape_tax state pt price vol q = 0)
    ∧ (∀ a : ℚ, calculate_sales_tax state a = 0)
    ∧ ∀ cart : List CartItem,
        (calculate_cart_tax cart state).total_excise_tax = 0
        ∧ (calculate_cart_tax cart state).total_sales_tax = 0
        ∧ (calculate_cart_tax cart state).total_tax = 0
        ∧ (calculate_cart_tax cart state).grand_total =
            (calculate_cart_tax cart state).subtotal
        ∧ ∀ it ∈ (calculate_cart_tax cart state).items,
            it.excise_tax = 0 ∧ it.sales_tax = 0 ∧ it.total_tax = 0 := by
  refine ⟨cigarette_zero h, cigar_zero h, vape_zero h, sales_zero h, ?_⟩
  intro cart
  rw [cart_eq]
  dsimp only
  have hexc : ∀ i ∈ cart, (itemOf state i).excise_tax = 0 := fun i _ =>
    (item_zero h i.product i.quantity).1
  have hsal : ∀ i ∈ cart, (itemOf state i).sales_tax = 0 := fun i _ =>
    (item_zero h i.product i.quantity).2.1
  have htot : ∀ i ∈ cart, (itemOf state i).total_tax = 0 := fun i _ =>
    (item_zero h i.product i.quantity).2.2
  refine ⟨sum_map_zero _ _ hexc, sum_map_zero _ _ hsal,
    sum_map_zero _ _ htot, ?_, ?_⟩
  · rw [sum_map_zero _ _ htot]; ring
  · intro it hit
    rcases List.mem_map.1 hit with ⟨i, _, rfl⟩
    exact item_zero h i.product i.quantity

theorem c3_witness :
    calculate_cigarette_tax "ZZ" 5 = 0
    ∧ (calculate_cart_tax [⟨packProduct, 2⟩] "ZZ").total_tax = 0
    ∧ (calculate_cart_tax [⟨packProduct, 2⟩] "ZZ").grand_total =
        (calculate_cart_tax [⟨packProduct, 2⟩] "ZZ").subtotal := by
  have h := c3_unknown_jurisdiction_all_zero "ZZ" rfl
  exact ⟨h.1 5, (h.2.2.2.2 [⟨packProduct, 2⟩]).2.2.1,
    (h.2.2.2.2 [⟨packProduct, 2⟩]).2.2.2.1⟩

/-- C7: for every jurisdiction present in the rule table and every
quantity `q ≥ 0`, the cigarette excise is exactly the state's per-pack
rate times the quantity (exact rational arithmetic, no rounding). -/
theorem c7_cigarette_excise (state : String) (data : StateTaxData)
    (q : ℤ) (hlook : taxLookup state = some data) (_hq : 0 ≤ q) :
    calculate_cigarette_tax state q = data.cigarette_tax * q := by
  simp [calculate_cigarette_tax, hlook]

theorem c7_witness : calculate_cigarette_tax "DE" 3 = 6.3 := by
  have h := c7_cigarette_excise "DE"
    ⟨2.100, CigarRule.percentage 0.30 CigarCap.noCap,
     some (VapeRule.perMl 0.05), false, 0.00⟩ 3 rfl (by norm_num)
  rw [h]
  norm_num

/-- C9: `calculate_cart_tax` adds each line's unit base price to the
subtotal once (not multiplied by the quantity), while the excise it adds
scales linearly with the quantity, and each per-item `price_with_tax` is
the unit base price plus the total tax for the whole quantity. -/
theorem c9_subtotal_and_scaling (cart : List CartItem) (state : String) :
    (calculate_cart_tax cart state).subtotal =
      (cart.map fun i => i.product.price).sum
    ∧ (∀ it ∈ (calculate_cart_tax cart state).items,
        it.price_with_tax = it.base_price + it.total_tax)
    ∧ ∀ (p : Product) (st : String) (q : ℤ),
        (calculate_product_tax p st q).base_price = p.price
        ∧ (calculate_product_tax p st q).excise_tax =
            q * (calculate_product_tax p st 1).excise_tax := by
  refine ⟨?_, ?_, ?_⟩
  · rw [cart_eq]
    dsimp only
    apply congrArg List.sum
    apply List.map_congr_left
    intro i _
    exact item_base_eq i.product state i.quantity
  · intro it hit
    rw [cart_eq] at hit
    dsimp only at hit
    rcases List.mem_map.1 hit with ⟨i, _, rfl⟩
    exact item_pwt_eq i.product state i.quantity
  · intro p st q
    refine ⟨item_base_eq p st q, ?_⟩
    rw [item_excise_eq, item_excise_eq]
    exact total_excise_linear st (get_product_type p) p.price q
      (extract_volume_ml p)

theorem c9_witness :
    (calculate_cart_tax [⟨packProduct, 3⟩] "DE").subtotal =
      ([⟨packProduct, 3⟩].map fun i : CartItem => i.product.price).sum
    ∧ (calculate_product_tax packProduct "DE" 3).price_with_tax =
        (calculate_product_tax packProduct "DE" 3).base_price +
          (calculate_product_tax packProduct "DE" 3).total_tax
    ∧ (calculate_product_tax packProduct "DE" 3).excise_tax =
        3 * (calculate_product_tax packProduct "DE" 1).excise_tax := by
  have h := c9_subtotal_and_scaling [⟨packProduct, 3⟩] "DE"
  refine ⟨h.1, ?_, (h.2.2 packProduct "DE" 3).2⟩
  apply h.2.1 (calculate_product_tax packProduct "DE" 3)
  rw [cart_eq]
  exact List.mem_singleton.2 rfl

/-- C10: Nebraska's bifurcated vape entry stores only the keys
`'small'`/`'large'` (neither `'open'` nor `'closed'`), and New York's
entry is tagged `'retail'`, which no branch of `calculate_vape_tax`
matches: both yield zero vape excise for every product type, price,
volume and quantity. -/
theorem c10_ne_ny_vape_zero (pt : String) (price vol : Option ℚ)
    (q : ℤ) :
    calculate_vape_tax "NE" pt price vol q = 0
    ∧ calculate_vape_tax "NY" pt price vol q = 0 := by
  constructor
  · have h : taxLookup "NE" =
        some ⟨0.640, CigarRule.percentage 0.20 CigarCap.noCap,
          some (VapeRule.bifurcated Option.none Option.none), true,
          0.055⟩ := rfl
    simp only [calculate_vape_tax, h]
    split_ifs <;> rfl
  · have h : taxLookup "NY" =
        some ⟨5.350, CigarRule.percentage 0.75 CigarCap.noCap,
          some (VapeRule.retail 0.20), true, 0.08⟩ := rfl
    simp [calculate_vape_tax, h]

/-- C2: for every jurisdiction whose cigar rule is of type percentage,
price `p ≥ 0` and quantity `q ≥ 1`, the cigar excise is the per-unit tax
`p * rate` — capped by `min` with the fixed cap when a single cap is
configured, else by `min` with `cap_low` when `p < 10` and with
`cap_high` when `p ≥ 10` when a tiered cap pair is configured —
multiplied by the quantity; and in particular price 100, rate 10%,
cap 5.00, quantity 3 gives an excise of 15.00. -/
theorem c2_cigar_percentage_rule (state : String) (data : StateTaxData)
    (rate : ℚ) (cap : CigarCap) (p : ℚ) (q : ℤ)
    (hlook : taxLookup state = some data)
    (hrule : data.cigar_tax = CigarRule.percentage rate cap)
    (_hp : 0 ≤ p) (_hq : 1 ≤ q) :
    calculate_cigar_tax state p q = cigarTaxPerUnit p rate cap * q
    ∧ cigarTaxPerUnit 100 0.10 (CigarCap.single 5) * ((3 : ℤ) : ℚ)
        = 15 := by
  constructor
  · simp only [calculate_cigar_tax, hlook, hrule, cigarTaxPerUnit]
  · simp only [cigarTaxPerUnit]
    norm_num [min_def]

theorem c2_witness :
    calculate_cigar_tax "AR" 100 3 =
      cigarTaxPerUnit 100 0.68 (CigarCap.single 0.50) * ((3 : ℤ) : ℚ)
    ∧ cigarTaxPerUnit 100 0.10 (CigarCap.single 5) * ((3 : ℤ) : ℚ)
        = 15 := by
  have h := c2_cigar_percentage_rule "AR"
    ⟨1.150, CigarRule.percentage 0.68 (CigarCap.single 0.50),
     Option.none, true, 0.065⟩ 0.68 (CigarCap.single 0.50) 100 3 rfl rfl
    (by norm_num) (by norm_num)
  exact h

/-- C4: for every jurisdiction whose vape rule is bifurcated with a
configured closed sub-rate `c`, and every closed-system item: when
`c < 1` the excise is `price * c * quantity` (in particular zero when the
price is missing, since `Option.getD` reads an absent price as zero);
when `c ≥ 1` and a volume is present — present meaning a nonzero volume,
the source's Python truthiness test `if volume_ml:` — the excise is
`volume * c * quantity`; and when `c ≥ 1` and no volume is present
(absent or zero) the excise is the flat `c * quantity`. -/
theorem c4_bifurcated_closed (state : String) (data : StateTaxData)
    (o : Option ℚ) (c : ℚ) (price volume_ml : Option ℚ) (q : ℤ)
    (hlook : taxLookup state = some data)
    (hrule : data.vape_tax = some (VapeRule.bifurcated o (some c))) :
    (c < 1 →
      calculate_vape_tax state "closed" price volume_ml q =
        price.getD 0 * c * q)
    ∧ (1 ≤ c → ∀ v, volume_ml = some v → v ≠ 0 →
        calculate_vape_tax state "closed" price volume_ml q = v * c * q)
    ∧ (1 ≤ c → volume_ml = Option.none ∨ volume_ml = some 0 →
        calculate_vape_tax state "closed" price volume_ml q
          = c * q) := by
  have hred : calculate_vape_tax state "closed" price volume_ml q =
      (if c < 1 then
        (if truthy price then price.getD 0 * c * q else 0)
       else
        (if truthy volume_ml then volume_ml.getD 0 * c * q
         else c * q)) := by
    simp only [calculate_vape_tax, hlook, hrule]
    rfl
  refine ⟨?_, ?_, ?_⟩
  · intro hc
    rw [hred, if_pos hc]
    rcases price with _ | pv
    · simp [truthy]
    · by_cases hpv : pv = 0
      · subst hpv; simp [truthy]
      · simp [truthy, hpv]
  · intro hc v hv hv0
    subst hv
    rw [hred, if_neg (not_lt.2 hc), if_pos (by simp [truthy, hv0])]
    simp
  · intro hc hv
    rw [hred, if_neg (not_lt.2 hc)]
    rcases hv with hv | hv <;> subst hv <;> simp [truthy]

theorem c4_witness :
    calculate_vape_tax "CT" "closed" (some 10) Option.none 2 =
      (some (10 : ℚ)).getD 0 * 0.40 * ((2 : ℤ) : ℚ) := by
  have h := c4_bifurcated_closed "CT"
    ⟨4.350, CigarRule.percentage 0.50 (CigarCap.single 0.50),
     some (VapeRule.bifurcated (some 0.10) (some 0.40)), true, 0.0635⟩
    (some 0.10) 0.40 (some 10) Option.none 2 rfl rfl
  exact h.1 (by norm_num)

/-- C5 counterexample: Connecticut's bifurcated open sub-rate is 0.10,
a fractional value, so the claim prescribes a percentage-of-price excise
(zero here: the price is absent, which the claim's own convention — cf.
the closed case — reads as zero).  The code instead falls back to the
volume and returns `5 * 0.10 * 1 = 1/2 ≠ 0`: for open-system items the
branch is on presence of a price, not on the magnitude of the rate. -/
theorem c5_counterexample :
    calculate_vape_tax "CT" "open" Option.none (some 5) 1 = 1 / 2
    ∧ calculate_vape_tax "CT" "open" Option.none (some 5) 1 ≠
        (Option.none : Option ℚ).getD 0 * 0.10 * ((1 : ℤ) : ℚ) := by
  have h : taxLookup "CT" =
      some ⟨4.350, CigarRule.percentage 0.50 (CigarCap.single 0.50),
        some (VapeRule.bifurcated (some 0.10) (some 0.40)), true,
        0.0635⟩ := rfl
  constructor
  · simp [calculate_vape_tax, h, truthy]
    norm_num
  · simp [calculate_vape_tax, h, truthy]
    norm_num

/-- C5 amended: for every jurisdiction whose vape rule is bifurcated
with a configured open sub-rate, the open-system excise branches on the
presence of a price, not on whether the sub-rate is below 1: a nonzero
price gives `price * open_rate * quantity`; with the price absent or
zero, a nonzero volume gives `volume * open_rate * quantity`; otherwise
the excise is zero.  (All configured open sub-rates happen to be below
1.) -/
theorem c5_amended_open_branches_on_price :
    (∀ (state : String) (data : StateTaxData) (o : ℚ) (c : Option ℚ),
        taxLookup state = some data →
        data.vape_tax = some (VapeRule.bifurcated (some o) c) → o < 1)
    ∧ ∀ (state : String) (data : StateTaxData) (o : ℚ) (c : Option ℚ)
        (price volume_ml : Option ℚ) (q : ℤ),
        taxLookup state = some data →
        data.vape_tax = some (VapeRule.bifurcated (some o) c) →
        (∀ p, price = some p → p ≠ 0 →
            calculate_vape_tax state "open" price volume_ml q
              = p * o * q)
        ∧ ((price = Option.none ∨ price = some 0) →
            ∀ v, volume_ml = some v → v ≠ 0 →
              calculate_vape_tax state "open" price volume_ml q
                = v * o * q)
        ∧ ((price = Option.none ∨ price = some 0) →
            (volume_ml = Option.none ∨ volume_ml = some 0) →
              calculate_vape_tax state "open" price volume_ml q
                = 0) := by
  constructor
  · intro state data o c hl hr
    have hm := lookup_mem _ _ _ hl
    simp only [tax_data] at hm
    fin_cases hm <;> simp_all <;>
      (obtain ⟨h1, h2⟩ := hr; subst h1; norm_num)
  · intro state data o c price volume_ml q hl hr
    have hred : calculate_vape_tax state "open" price volume_ml q =
        (if truthy price then price.getD 0 * o * q
         else if truthy volume_ml then volume_ml.getD 0 * o * q
         else 0) := by
      simp only [calculate_vape_tax, hl, hr]
      rfl
    refine ⟨?_, ?_, ?_⟩
    · intro p hp hp0
      subst hp
      rw [hred]
      simp [truthy, hp0]
    · intro hpr v hv hv0
      subst hv
      rw [hred]
      rcases hpr with h0 | h0 <;> subst h0 <;> simp [truthy, hv0]
    · intro hpr hvol
      rw [hred]
      rcases hpr with h0 | h0 <;> subst h0 <;>
        rcases hvol with h1 | h1 <;> subst h1 <;> simp [truthy]

theorem c5_witness :
    calculate_vape_tax "CT" "open" Option.none (some 5) 1 =
      5 * 0.10 * ((1 : ℤ) : ℚ) := by
  have h := (c5_amended_open_branches_on_price.2 "CT"
    ⟨4.350, CigarRule.percentage 0.50 (CigarCap.single 0.50),
     some (VapeRule.bifurcated (some 0.10) (some 0.40)), true, 0.0635⟩
    0.10 (some 0.40) Option.none (some 5) 1 rfl rfl).2.1
  exact h (Or.inl rfl) 5 rfl (by norm_num)

/-- C6: for every jurisdiction in the rule table the sales tax on an
amount is zero when `sales_tax_applies` is false and
`amount * sales_tax_rate` otherwise; `calculate_total_tax` always feeds
it the tax-on-tax base `base_price + excise_tax` and returns
`total_tax = excise_tax + sales_tax`; in particular at a 5% rate a $10
item carrying $2 of excise pays $0.60 of sales tax, $2.60 total. -/
theorem c6_sales_tax_on_excise :
    (∀ (state : String) (data : StateTaxData) (taxable : ℚ),
        taxLookup state = some data →
        calculate_sales_tax state taxable =
          if data.sales_tax_applies then taxable * data.sales_tax_rate
          else 0)
    ∧ (∀ (state pt : String) (b : ℚ) (q : ℤ) (v : Option ℚ),
        (calculate_total_tax state pt b q v).sales_tax =
          calculate_sales_tax state
            (b + (calculate_total_tax state pt b q v).excise_tax)
        ∧ (calculate_total_tax state pt b q v).total_tax =
            (calculate_total_tax state pt b q v).excise_tax +
              (calculate_total_tax state pt b q v).sales_tax)
    ∧ ∀ (state : String) (data : StateTaxData),
        taxLookup state = some data → data.sales_tax_applies = true →
        data.sales_tax_rate = 0.05 →
        calculate_sales_tax state (10 + 2) = 0.60
        ∧ ∀ (pt : String) (q : ℤ) (v : Option ℚ),
            (calculate_total_tax state pt 10 q v).excise_tax = 2 →
            (calculate_total_tax state pt 10 q v).total_tax = 2.60 := by
  refine ⟨?_, ?_, ?_⟩
  · intro state data taxable h
    simp [calculate_sales_tax, h]
  · intro state pt b q v
    exact ⟨rfl, rfl⟩
  · intro state data hl ha hr
    have hsales : ∀ t : ℚ, calculate_sales_tax state t = t * 0.05 := by
      intro t
      simp [calculate_sales_tax, hl, ha, hr]
    constructor
    · rw [hsales]
      norm_num
    · intro pt q v hex
      have h1 : (calculate_total_tax state pt 10 q v).total_tax =
          (calculate_total_tax state pt 10 q v).excise_tax +
            calculate_sales_tax state
              (10 + (calculate_total_tax state pt 10 q v).excise_tax) :=
        rfl
      rw [h1, hex, hsales]
      norm_num

theorem c6_witness :
    calculate_sales_tax "WI" (10 + 2) = 0.60
    ∧ (calculate_total_tax "WI" "cigars" 10 4 Option.none).total_tax
        = 2.60 := by
  have h := c6_sales_tax_on_excise.2.2 "WI"
    ⟨2.520, CigarRule.percentage 0.71 (CigarCap.single 0.50),
     some (VapeRule.perMl 0.05), true, 0.05⟩ rfl rfl rfl
  refine ⟨h.1, h.2 "cigars" 4 Option.none ?_⟩
  have hl : taxLookup "WI" =
      some ⟨2.520, CigarRule.percentage 0.71 (CigarCap.single 0.50),
        some (VapeRule.perMl 0.05), true, 0.05⟩ := rfl
  simp [calculate_total_tax, calculate_cigar_tax, hl]
  norm_num [min_def]

/-- C8 counterexample: the calculators do not normalize the jurisdiction
code.  A one-line cart computed for "de" yields an all-zero-tax summary
(grand total 10), while the same cart for the uppercase form "DE" yields
grand total 12.1, so the results differ. -/
theorem c8_counterexample :
    calculate_cart_tax [⟨packProduct, 1⟩] "de" ≠
      calculate_cart_tax [⟨packProduct, 1⟩] (pyUpper "de") := by
  have hup : pyUpper "de" = "DE" := rfl
  have h1 : (calculate_cart_tax [⟨packProduct, 1⟩] "de").grand_total
      = 10 := by
    rw [cart_eq]
    dsimp only
    have hz : ∀ i ∈ [(⟨packProduct, 1⟩ : CartItem)],
        (itemOf "de" i).total_tax = 0 := fun i _ =>
      (item_zero (show taxLookup "de" = Option.none from rfl) i.product
        i.quantity).2.2
    rw [sum_map_zero _ _ hz]
    simp [itemOf, item_base_eq, packProduct]
  have h2 : (calculate_cart_tax [⟨packProduct, 1⟩] "DE").grand_total
      = 12.1 := by
    rw [cart_eq]
    dsimp only
    have hpt : get_product_type packProduct = "cigarettes" := rfl
    have hvol : extract_volume_ml packProduct = Option.none := rfl
    have hl : taxLookup "DE" =
        some ⟨2.100, CigarRule.percentage 0.30 CigarCap.noCap,
          some (VapeRule.perMl 0.05), false, 0.00⟩ := rfl
    simp only [List.map_cons, List.map_nil, List.sum_cons, List.sum_nil,
      itemOf]
    simp only [calculate_product_tax, hpt, hvol, calculate_total_tax,
      calculate_cigarette_tax, calculate_sales_tax, hl]
    norm_num [packProduct]
  intro heq
  have h := congrArg CartTaxSummary.grand_total heq
  rw [hup, h1, h2] at h
  norm_num at h

/-- C8 amended: only the `/tax/state/<code>` route handler
`get_state_tax_info` normalizes the jurisdiction code to uppercase
before the lookup; `calculate_cart_tax` (and the calculators beneath it)
use the code exactly as given, so a non-uppercase form of a valid code is
treated as an unknown jurisdiction and yields zero tax with
`grand_total = subtotal`. -/
theorem c8_amended_only_route_normalizes :
    (∀ code : String,
        get_state_tax_info code = get_tax_rate_summary (pyUpper code))
    ∧ get_state_tax_info "de" = get_state_tax_info "DE"
    ∧ taxLookup "de" = Option.none
    ∧ ∀ cart : List CartItem,
        (calculate_cart_tax cart "de").total_tax = 0
        ∧ (calculate_cart_tax cart "de").grand_total =
            (calculate_cart_tax cart "de").subtotal := by
  refine ⟨fun _ => rfl, rfl, rfl, ?_⟩
  intro cart
  have htot : ∀ i ∈ cart, (itemOf "de" i).total_tax = 0 := fun i _ =>
    (item_zero (show taxLookup "de" = Option.none from rfl) i.product
      i.quantity).2.2
  rw [cart_eq]
  dsimp only
  rw [sum_map_zero _ _ htot]
  exact ⟨rfl, by ring⟩

end MokTax
